import Mathlib

/-!
Shallow embedding of `src/telegrambot.py` (a polling Telegram notifier for
homework review statuses) and proofs about its specified behaviour.

Modelling conventions:
- JSON-like Python values are modelled by the inductive `Val`; Python
  truthiness by `Val.truthy`.
- A raised Python exception is modelled by `BotError`, one constructor per
  raise site in the source; `BotError.pyClass` records the Python exception
  class used at that site and the kind predicates group the sites the way
  the specification's error taxonomy does.
- Fallible functions return `Except BotError _`.
- Network and clock nondeterminism is passed in explicitly: `HttpOutcome`
  is the outcome of the one `requests.get` of a cycle, `SendOutcome` the
  outcome of one `bot.send_message` call, and `CycleEnv.now` the value
  `time.time()` would return at line 145.
- Observable actions (HTTP request, send attempts, log lines, sleeping) are
  recorded in a trace of `Event`s.
- Timestamps are modelled in whole seconds as `Nat` (the code sends
  `int(round(timestamp))` upstream).
-/

/-- Python/JSON values as they flow through the bot. -/
inductive Val where
  | null
  | bool (b : Bool)
  | num (n : Int)
  | str (s : String)
  | list (xs : List Val)
  | dict (kvs : List (String × Val))

/-- Python truthiness (`if homework:` in `main`, `any([...])` truthiness). -/
def Val.truthy : Val → Bool
  | .null => false
  | .bool b => b
  | .num n => decide (n ≠ 0)
  | .str s => !s.isEmpty
  | .list xs => !xs.isEmpty
  | .dict kvs => !kvs.isEmpty

mutual

/-- Python `repr` of a value (used by `str` on containers). -/
def Val.pyRepr : Val → String
  | .null => "None"
  | .bool b => if b then "True" else "False"
  | .num n => toString n
  | .str s => "'" ++ s ++ "'"
  | .list xs => "[" ++ pyReprList xs ++ "]"
  | .dict kvs => "\x7b" ++ pyReprDict kvs ++ "\x7d"

def pyReprList : List Val → String
  | [] => ""
  | [x] => Val.pyRepr x
  | x :: xs => Val.pyRepr x ++ ", " ++ pyReprList xs

def pyReprDict : List (String × Val) → String
  | [] => ""
  | [kv] => "'" ++ kv.1 ++ "': " ++ Val.pyRepr kv.2
  | kv :: xs => "'" ++ kv.1 ++ "': " ++ Val.pyRepr kv.2 ++ ", " ++ pyReprDict xs

end

/-- Python `str()` of a value, as used by f-string interpolation. -/
def Val.pyStr : Val → String
  | .str s => s
  | v => v.pyRepr

/-- Key lookup in a modelled Python dict (`d['k']` / `d.get('k')` / `'k' in d`). -/
def dictGet (kvs : List (String × Val)) (k : String) : Option Val :=
  kvs.lookup k

/-- `RETRY_PERIOD = 600` (line 17). -/
def RETRY_PERIOD : Nat := 600

/-- `HOMEWORK_VERDICTS` (lines 22-26). -/
def HOMEWORK_VERDICTS : List (String × String) :=
  [("approved", "Работа проверена: ревьюеру всё понравилось. Ура!"),
   ("reviewing", "Работа взята на проверку ревьюером."),
   ("rejected", "Работа проверена: у ревьюера есть замечания.")]

/-- One constructor per raise site of `telegrambot.py`. -/
inductive BotError where
  /-- line 82: `raise Exception(...)` after a non-200 status code. -/
  | badStatus (code : Nat)
  /-- line 89: `raise Exception(...)` after a `requests.exceptions.RequestException`. -/
  | requestFailed (why : String)
  /-- line 96: raised after `JSONDecodeError` from `.json()`. -/
  | jsonDecode (why : String)
  /-- line 102: `raise TypeError` — response is not a dict. -/
  | notADict
  /-- line 104: `raise KeyError` — no `homeworks` key. -/
  | missingHomeworks
  /-- line 106: `raise KeyError` — no `current_date` key. -/
  | missingCurrentDate
  /-- line 109: `raise TypeError` — `homeworks` value is not a list. -/
  | homeworksNotList
  /-- line 119: `raise KeyError` — `homework_name` absent or null. -/
  | missingHomeworkName
  /-- line 121: `raise KeyError` — no `status` key. -/
  | missingStatus
  /-- line 124: `raise SystemError` — status not in `HOMEWORK_VERDICTS`. -/
  | unknownStatus
  /-- `AttributeError` Python raises when `parse_status` receives a
  non-dict and calls `.get` on it (no explicit raise site; implicit in
  line 117). -/
  | attributeError (why : String)
deriving DecidableEq

/-- The Python exception class raised at each site. (At line 96 the source
writes `raise JSONDecodeError(error_message)`; we record the class the
raise statement names.) -/
def BotError.pyClass : BotError → String
  | .badStatus _ => "Exception"
  | .requestFailed _ => "Exception"
  | .jsonDecode _ => "JSONDecodeError"
  | .notADict => "TypeError"
  | .missingHomeworks => "KeyError"
  | .missingCurrentDate => "KeyError"
  | .homeworksNotList => "TypeError"
  | .missingHomeworkName => "KeyError"
  | .missingStatus => "KeyError"
  | .unknownStatus => "SystemError"
  | .attributeError _ => "AttributeError"

/-- The message each raise site attaches to its exception. -/
def BotError.message : BotError → String
  | .badStatus code =>
      "Ошибка при запросе к API \"Яндекс.Домашка\". Статус код: " ++ toString code
  | .requestFailed why =>
      "Ошибка направления запроса к API \"Яндекс.Домашка\": " ++ why ++ "."
  | .jsonDecode why => "Ошибка при получении ответа: " ++ why
  | .notADict => "Полученный ответ не является словарем."
  | .missingHomeworks => "В ответе отсутствует информация о домашних заданиях."
  | .missingCurrentDate => "В ответе отсутствует информация о текущей дате."
  | .homeworksNotList => "Значение ключа homeworks не является списком."
  | .missingHomeworkName => "Ключ \"homework_name\" отсутствует."
  | .missingStatus => "Ключ \"status\" отсутствует."
  | .unknownStatus => "Неизвестный статус"
  | .attributeError why => why

/-- Python `str(error)`, as interpolated into the loop's failure message
(`KeyError.__str__` shows the repr of its argument, hence the quotes). -/
def BotError.pyStr (e : BotError) : String :=
  if e.pyClass = "KeyError" then "'" ++ e.message ++ "'" else e.message

/-- The specification's `UpstreamError` kind: network/HTTP failure talking
to the API (raise sites at lines 82 and 89). -/
def BotError.isUpstreamKind : BotError → Bool
  | .badStatus _ => true
  | .requestFailed _ => true
  | _ => false

/-- The specification's `DecodeError` kind: malformed JSON body (line 96). -/
def BotError.isDecodeKind : BotError → Bool
  | .jsonDecode _ => true
  | _ => false

/-- The specification's `SchemaError` kind: well-formed JSON with
missing/wrong-typed required fields (the `TypeError`/`KeyError` sites of
`check_response` and `parse_status`). -/
def BotError.isSchemaKind : BotError → Bool
  | .notADict => true
  | .missingHomeworks => true
  | .missingCurrentDate => true
  | .homeworksNotList => true
  | .missingHomeworkName => true
  | .missingStatus => true
  | _ => false

/-- The specification's `UnknownStatusError` kind (line 124). -/
def BotError.isUnknownStatusKind : BotError → Bool
  | .unknownStatus => true
  | _ => false

/-- Outcome of the single `requests.get` call of `get_api_answer`:
either a transport-level `RequestException`, or a response with a status
code and a body whose `.json()` either decodes to a value or raises
`JSONDecodeError` with some message. -/
inductive HttpOutcome where
  | requestException (msg : String)
  | response (statusCode : Nat) (body : Except String Val)

/-- Observable actions of the program. -/
inductive Event where
  /-- `requests.get(ENDPOINT, ..., params={'from_date': fromDate})`. -/
  | httpGet (fromDate : Nat)
  /-- `bot.send_message(TELEGRAM_CHAT_ID, message)` attempted. -/
  | sendAttempt (message : String)
  | logDebug (msg : String)
  | logError (msg : String)
  | logCritical (msg : String)
  /-- `time.sleep(seconds)`. -/
  | sleep (seconds : Nat)
deriving DecidableEq

/-- An event that touches the network (the HTTP GET to the upstream API,
or a Telegram send attempt). -/
def Event.isNetwork : Event → Bool
  | .httpGet _ => true
  | .sendAttempt _ => true
  | _ => false

/-- `get_api_answer` (lines 68-96): the events it performs and the value
it returns (`Except.ok`) or the exception it raises (`Except.error`).
A non-200 status raises at line 82 (an `Exception`, which the
`except RequestException` clause does not catch); a `RequestException`
from `requests.get` is re-raised as an `Exception` at line 89; a
`JSONDecodeError` from `.json()` is re-raised at line 96; otherwise the
decoded body is returned unchanged. -/
def get_api_answer (timestamp : Nat) (http : HttpOutcome) :
    List Event × Except BotError Val :=
  match http with
  | .requestException msg =>
      let e := BotError.requestFailed msg
      ([.httpGet timestamp, .logError e.message], .error e)
  | .response code body =>
      if code ≠ 200 then
        let e := BotError.badStatus code
        ([.httpGet timestamp, .logError e.message], .error e)
      else
        match body with
        | .error msg =>
            let e := BotError.jsonDecode msg
            ([.httpGet timestamp, .logError e.message], .error e)
        | .ok v => ([.httpGet timestamp], .ok v)

/-- `check_response` (lines 99-112). Returns `Val.null` (Python `None`)
for an empty `homeworks` list, the first element otherwise. -/
def check_response (response : Val) : Except BotError Val :=
  match response with
  | .dict kvs =>
      match dictGet kvs "homeworks" with
      | none => .error .missingHomeworks
      | some homeworks =>
          match dictGet kvs "current_date" with
          | none => .error .missingCurrentDate
          | some _ =>
              match homeworks with
              | .list [] => .ok .null
              | .list (h :: _) => .ok h
              | _ => .error .homeworksNotList
  | _ => .error .notADict

/-- `parse_status` (lines 115-126). `homework.get('homework_name')`
yields Python `None` both when the key is absent and when its value is
null, so both fail the same way; `'status' not in homework` is key
presence; the verdict lookup is by dict membership, so a non-string
status is simply not found. -/
def parse_status (homework : Val) : Except BotError String :=
  match homework with
  | .dict kvs =>
      match dictGet kvs "homework_name" with
      | none => .error .missingHomeworkName
      | some .null => .error .missingHomeworkName
      | some nameVal =>
          match dictGet kvs "status" with
          | none => .error .missingStatus
          | some statusVal =>
              match statusVal with
              | .str s =>
                  match HOMEWORK_VERDICTS.lookup s with
                  | none => .error .unknownStatus
                  | some verdict =>
                      .ok ("Изменился статус проверки работы \"" ++
                           nameVal.pyStr ++ "\". " ++ verdict)
              | _ => .error .unknownStatus
  | v => .error (.attributeError
      ("object of type " ++ v.pyRepr ++ " has no attribute get"))

/-- Outcome of one `bot.send_message` call against the Telegram
transport: success, or a `telegram.TelegramError`. -/
inductive SendOutcome where
  | ok
  | telegramError (msg : String)
deriving DecidableEq

/-- `send_message` (lines 59-65): attempt the send; on success log the
debug line, on `TelegramError` log the error line. It returns its events
in every case — it has no error result, so a transport failure is never
propagated to the caller. -/
def send_message (outcome : SendOutcome) (message : String) : List Event :=
  match outcome with
  | .ok => [.sendAttempt message, .logDebug "Telegram бот запущен."]
  | .telegramError e =>
      [.sendAttempt message,
       .logError ("Ошибка отправки сообщения в чат: " ++ e ++ ".")]

/-- The three secrets read from the environment at lines 13-15
(`os.getenv` gives `None` for an unset variable). -/
structure Env where
  PRACTICUM_TOKEN : Option String
  TELEGRAM_TOKEN : Option String
  TELEGRAM_CHAT_ID : Option String

/-- Truthiness of an `os.getenv` result: `None` and the empty string are
falsy, any other string is truthy. -/
def envTruthy : Option String → Bool
  | none => false
  | some s => !s.isEmpty

/-- `check_tokens` (lines 51-56): `not any([...])` over the three
secrets. -/
def check_tokens (e : Env) : Bool :=
  envTruthy e.PRACTICUM_TOKEN || envTruthy e.TELEGRAM_TOKEN ||
    envTruthy e.TELEGRAM_CHAT_ID

/-- Whether startup reached the polling loop or exited early. -/
inductive StartupResult where
  | exited
  | reachedLoop
deriving DecidableEq

/-- The startup portion of `main` (lines 131-135): exit if
`check_tokens` fails (after the critical log line from line 54), else
create the bot, send the greeting message and enter the loop.
`greetingSend` is the transport outcome of that greeting send. -/
def mainStartup (e : Env) (greetingSend : SendOutcome) :
    StartupResult × List Event :=
  if !check_tokens e then
    (.exited, [.logCritical "Отсутвует переменная окружения."])
  else
    (.reachedLoop, send_message greetingSend "Telegram бот запущен.")

/-- External nondeterminism consumed by one cycle of the poll loop:
the HTTP outcome of its one `requests.get`, the transport outcome of a
status-notification send and of a failure-notification send (whichever
is reached), and the value `time.time()` returns at line 145. -/
structure CycleEnv where
  http : HttpOutcome
  notifySend : SendOutcome
  failureSend : SendOutcome
  now : Nat

/-- Which branch of the loop body a cycle took: a notification was
attempted with the parsed message; the falsy-submission branch logged
"status unchanged"; or an exception reached the loop's `except` clause. -/
inductive CycleOutcome where
  | notified (message : String)
  | noSubmission
  | failed (e : BotError)
deriving DecidableEq

/-- Result of one cycle: its event trace, the cursor value after the
cycle, and which branch it took. -/
structure CycleResult where
  trace : List Event
  timestamp : Nat
  outcome : CycleOutcome

/-- The `except Exception` clause of `main` (lines 146-149): log the
failure message and best-effort send it to the chat. -/
def loopCatch (env : CycleEnv) (e : BotError) : List Event :=
  let message := "Сбой в работе программы: " ++ e.pyStr
  .logError message :: send_message env.failureSend message

/-- One iteration of the `while True` loop of `main` (lines 136-151).
The try body runs `get_api_answer`, `check_response`, then — only for a
truthy extracted submission — `parse_status` and `send_message`, and
reassigns `timestamp = time.time()` as its last statement; any raised
error skips that reassignment and goes to the `except` clause; the
`finally` clause always sleeps `RETRY_PERIOD`. -/
def runCycle (timestamp : Nat) (env : CycleEnv) : CycleResult :=
  let fetched := get_api_answer timestamp env.http
  let rest : List Event × Nat × CycleOutcome :=
    match fetched.2 with
    | .error e => (loopCatch env e, timestamp, .failed e)
    | .ok response =>
        match check_response response with
        | .error e => (loopCatch env e, timestamp, .failed e)
        | .ok homework =>
            if homework.truthy then
              match parse_status homework with
              | .error e => (loopCatch env e, timestamp, .failed e)
              | .ok message =>
                  (send_message env.notifySend message, env.now,
                   .notified message)
            else
              ([.logDebug "Статус проверки работы не изменён."], env.now,
               .noSubmission)
  { trace := fetched.1 ++ rest.1 ++ [.sleep RETRY_PERIOD],
    timestamp := rest.2.1,
    outcome := rest.2.2 }

/-- Whether the try body of a cycle raises (so that control reaches the
`except` clause and the cursor reassignment at line 145 is skipped). -/
def cycleFails (env : CycleEnv) : Bool :=
  match env.http with
  | .requestException _ => true
  | .response code body =>
      if code ≠ 200 then true
      else
        match body with
        | .error _ => true
        | .ok v =>
            match check_response v with
            | .error _ => true
            | .ok homework =>
                if homework.truthy then
                  match parse_status homework with
                  | .error _ => true
                  | .ok _ => false
                else false

/-- Running several consecutive cycles, threading the cursor. -/
def runLoop (timestamp : Nat) : List CycleEnv → List Event × Nat
  | [] => ([], timestamp)
  | env :: rest =>
      let r := runCycle timestamp env
      let tail := runLoop r.timestamp rest
      (r.trace ++ tail.1, tail.2)

/-- The concrete body of the specification's round-trip property. -/
def roundTripBody : Val :=
  .dict [("homeworks",
          .list [.dict [("homework_name", .str "hw1"),
                        ("status", .str "approved")]]),
         ("current_date", .num 100)]

/-- C6: For the input body
`{"homeworks":[{"homework_name":"hw1","status":"approved"}],"current_date":100}`,
validation followed by interpretation produces exactly the message
`Изменился статус проверки работы "hw1". Работа проверена: ревьюеру всё
понравилось. Ура!`. -/
theorem C6_round_trip_message :
    Except.bind (check_response roundTripBody) parse_status =
      .ok ("Изменился статус проверки работы \"hw1\". " ++
           "Работа проверена: ревьюеру всё понравилось. Ура!") := by
  rfl

/-- C9: Every cycle of the poll loop, successful or failing, ends with a
sleep of the fixed retry period (600 seconds) as its very last observable
action, so the loop never proceeds to the next cycle without sleeping. -/
theorem C9_every_cycle_sleeps (ts : Nat) (env : CycleEnv) :
    (runCycle ts env).trace.getLast? = some (.sleep RETRY_PERIOD) ∧
      RETRY_PERIOD = 600 := by
  exact ⟨List.getLast?_concat _, rfl⟩

/-- C7: For every cursor timestamp, `get_api_answer` fails with an
`UpstreamError`-kind error carrying the status code on a non-success HTTP
status, fails with a `DecodeError`-kind error on a non-JSON or malformed
body, and on success returns the decoded body unchanged (any value, with
no schema enforcement). -/
theorem C7_get_api_answer_contract (ts code : Nat) (body : Except String Val)
    (msg : String) (v : Val) :
    (code ≠ 200 →
       (get_api_answer ts (.response code body)).2 =
         .error (.badStatus code) ∧
       (BotError.badStatus code).isUpstreamKind = true) ∧
    ((get_api_answer ts (.response 200 (.error msg))).2 =
       .error (.jsonDecode msg) ∧
     (BotError.jsonDecode msg).isDecodeKind = true) ∧
    (get_api_answer ts (.response 200 (.ok v))).2 = .ok v := by
  refine ⟨fun h => ⟨?_, rfl⟩, ⟨rfl, rfl⟩, rfl⟩
  simp [get_api_answer, h]

/-- Witness for C7 at status code 404, a malformed body, and the body
`null`. -/
theorem C7_witness :
    (get_api_answer 0 (.response 404 (.ok .null))).2 =
        .error (.badStatus 404) ∧
      (BotError.badStatus 404).isUpstreamKind = true :=
  (C7_get_api_answer_contract 0 404 (.ok .null) "x" .null).1 (by decide)

/-- C2: If all three secrets are absent (unset, or set to the empty
string — both falsy to the `any` check), startup exits before performing
any network action; if at least one is present (a non-empty value), the
startup check passes and the process reaches the polling loop. -/
theorem C2_token_precondition (e : Env) (g : SendOutcome) :
    ((envTruthy e.PRACTICUM_TOKEN = false ∧ envTruthy e.TELEGRAM_TOKEN = false ∧
      envTruthy e.TELEGRAM_CHAT_ID = false) →
       (mainStartup e g).1 = .exited ∧
       ∀ ev ∈ (mainStartup e g).2, ev.isNetwork = false) ∧
    ((envTruthy e.PRACTICUM_TOKEN = true ∨ envTruthy e.TELEGRAM_TOKEN = true ∨
      envTruthy e.TELEGRAM_CHAT_ID = true) →
       (mainStartup e g).1 = .reachedLoop) := by
  constructor
  · rintro ⟨h1, h2, h3⟩
    constructor
    · simp [mainStartup, check_tokens, h1, h2, h3]
    · intro ev hev
      simp [mainStartup, check_tokens, h1, h2, h3] at hev
      simp [hev, Event.isNetwork]
  · intro h
    rcases h with h | h | h <;> simp [mainStartup, check_tokens, h]

/-- Witness for C2: with every secret unset the process exits and no
network event happens; with only the upstream token set it reaches the
loop. -/
theorem C2_witness :
    ((mainStartup ⟨none, none, none⟩ .ok).1 = .exited ∧
     ∀ ev ∈ (mainStartup ⟨none, none, none⟩ .ok).2, ev.isNetwork = false) ∧
    (mainStartup ⟨some "token", none, none⟩ .ok).1 = .reachedLoop :=
  ⟨(C2_token_precondition ⟨none, none, none⟩ .ok).1 (by decide),
   (C2_token_precondition ⟨some "token", none, none⟩ .ok).2
     (Or.inl (by decide))⟩

/-- C8: On a transport error the Notifier logs the failure and returns
its events normally — `send_message` has no error result, so nothing
propagates — and the enclosing cycle is unchanged by the failure: its
branch outcome, its resulting cursor and its final sleep are the same as
with a successful send, whichever of the two send sites (notification or
failure report) the error hits. -/
theorem C8_send_error_contained (e msg : String) (ts now : Nat)
    (http : HttpOutcome) (s : SendOutcome) :
    send_message (.telegramError e) msg =
      [.sendAttempt msg,
       .logError ("Ошибка отправки сообщения в чат: " ++ e ++ ".")] ∧
    ((runCycle ts ⟨http, .telegramError e, s, now⟩).outcome =
       (runCycle ts ⟨http, .ok, s, now⟩).outcome ∧
     (runCycle ts ⟨http, .telegramError e, s, now⟩).timestamp =
       (runCycle ts ⟨http, .ok, s, now⟩).timestamp ∧
     (runCycle ts ⟨http, .telegramError e, s, now⟩).trace.getLast? =
       some (.sleep RETRY_PERIOD)) ∧
    ((runCycle ts ⟨http, s, .telegramError e, now⟩).outcome =
       (runCycle ts ⟨http, s, .ok, now⟩).outcome ∧
     (runCycle ts ⟨http, s, .telegramError e, now⟩).timestamp =
       (runCycle ts ⟨http, s, .ok, now⟩).timestamp) := by
  refine ⟨rfl, ⟨?_, ?_, List.getLast?_concat _⟩, ?_, ?_⟩ <;>
    · rcases hf : (get_api_answer ts http).2 with err | v
      · simp [runCycle, hf]
      · rcases hc : check_response v with err | hw
        · simp [runCycle, hf, hc]
        · rcases hp : parse_status hw with err | m <;>
            cases ht : hw.truthy <;>
            simp [runCycle, hf, hc, hp, ht]

/-- The malformedness condition of the specification on a decoded body:
not a mapping, or missing `homeworks`, or missing `current_date`, or with
a non-list `homeworks` value. -/
def malformedBody (v : Val) : Bool :=
  match v with
  | .dict kvs =>
      (dictGet kvs "homeworks").isNone ||
      (dictGet kvs "current_date").isNone ||
      (match dictGet kvs "homeworks" with
       | some (.list _) => false
       | _ => true)
  | _ => true

/-- Every malformed body makes `check_response` fail with a
`SchemaError`-kind error. -/
theorem check_response_malformed (v : Val) (hm : malformedBody v = true) :
    ∃ e, check_response v = .error e ∧ e.isSchemaKind = true := by
  cases v with
  | dict kvs =>
      rcases hH : dictGet kvs "homeworks" with _ | hws
      · exact ⟨.missingHomeworks, by simp [check_response, hH], rfl⟩
      · rcases hC : dictGet kvs "current_date" with _ | cd
        · exact ⟨.missingCurrentDate, by simp [check_response, hH, hC], rfl⟩
        · cases hws with
          | list xs =>
              exfalso
              simp [malformedBody, hH, hC] at hm
          | null => exact ⟨.homeworksNotList, by simp [check_response, hH, hC], rfl⟩
          | bool b => exact ⟨.homeworksNotList, by simp [check_response, hH, hC], rfl⟩
          | num n => exact ⟨.homeworksNotList, by simp [check_response, hH, hC], rfl⟩
          | str s => exact ⟨.homeworksNotList, by simp [check_response, hH, hC], rfl⟩
          | dict kvs2 => exact ⟨.homeworksNotList, by simp [check_response, hH, hC], rfl⟩
  | null => exact ⟨.notADict, rfl, rfl⟩
  | bool b => exact ⟨.notADict, rfl, rfl⟩
  | num n => exact ⟨.notADict, rfl, rfl⟩
  | str s => exact ⟨.notADict, rfl, rfl⟩
  | list xs => exact ⟨.notADict, rfl, rfl⟩

/-- C3: Every decoded body that is not a mapping, or misses `homeworks`
or `current_date`, or whose `homeworks` value is not a list, makes the
Validator fail with a `SchemaError`-kind error, and a cycle that receives
such a body takes the failure branch — it never interprets or notifies a
submission. -/
theorem C3_malformed_body_schema_error (v : Val) (ts : Nat) (env : CycleEnv)
    (hm : malformedBody v = true)
    (hE : env.http = .response 200 (.ok v)) :
    ∃ e, check_response v = .error e ∧ e.isSchemaKind = true ∧
      (runCycle ts env).outcome = .failed e ∧
      ∀ m, (runCycle ts env).outcome ≠ .notified m := by
  obtain ⟨e, hce, hk⟩ := check_response_malformed v hm
  refine ⟨e, hce, hk, ?_, ?_⟩
  · simp [runCycle, get_api_answer, hE, hce]
  · intro m
    simp [runCycle, get_api_answer, hE, hce]

/-- Witness for C3: the non-mapping body `"oops"`. -/
theorem C3_witness :
    ∃ e, check_response (.str "oops") = .error e ∧ e.isSchemaKind = true ∧
      (runCycle 3 ⟨.response 200 (.ok (.str "oops")), .ok, .ok, 7⟩).outcome =
        .failed e ∧
      ∀ m, (runCycle 3 ⟨.response 200 (.ok (.str "oops")), .ok, .ok, 7⟩).outcome ≠
        .notified m :=
  C3_malformed_body_schema_error (.str "oops") 3
    ⟨.response 200 (.ok (.str "oops")), .ok, .ok, 7⟩ rfl rfl

/-- C10: When `homeworks` is non-empty but its first element is falsy
(for example the empty mapping), the cycle behaves exactly like the
"no submission" case: `check_response` returns that falsy element, the
loop takes the unchanged-status branch, sends nothing, raises nothing,
and still advances the cursor. -/
theorem C10_falsy_first_element (kvs : List (String × Val)) (cd hw : Val)
    (t : List Val) (ts : Nat) (env : CycleEnv)
    (hH : dictGet kvs "homeworks" = some (.list (hw :: t)))
    (hC : dictGet kvs "current_date" = some cd)
    (hfalsy : hw.truthy = false)
    (hE : env.http = .response 200 (.ok (.dict kvs))) :
    check_response (.dict kvs) = .ok hw ∧
    (runCycle ts env).outcome = .noSubmission ∧
    (runCycle ts env).timestamp = env.now ∧
    ∀ m, Event.sendAttempt m ∉ (runCycle ts env).trace := by
  have hcr : check_response (.dict kvs) = .ok hw := by
    simp [check_response, hH, hC]
  refine ⟨hcr, ?_, ?_, ?_⟩
  · simp [runCycle, get_api_answer, hE, hcr, hfalsy]
  · simp [runCycle, get_api_answer, hE, hcr, hfalsy]
  · intro m
    simp [runCycle, get_api_answer, hE, hcr, hfalsy]

/-- Witness for C10: `homeworks` is `[{}]` — one empty, hence falsy,
record without `homework_name` or `status`. -/
theorem C10_witness :
    check_response
        (.dict [("homeworks", .list [.dict []]), ("current_date", .num 1)]) =
      .ok (.dict []) ∧
    (runCycle 0 ⟨.response 200 (.ok (.dict [("homeworks", .list [.dict []]),
        ("current_date", .num 1)])), .ok, .ok, 42⟩).outcome = .noSubmission ∧
    (runCycle 0 ⟨.response 200 (.ok (.dict [("homeworks", .list [.dict []]),
        ("current_date", .num 1)])), .ok, .ok, 42⟩).timestamp =
      (⟨.response 200 (.ok (.dict [("homeworks", .list [.dict []]),
        ("current_date", .num 1)])), .ok, .ok, 42⟩ : CycleEnv).now ∧
    ∀ m, Event.sendAttempt m ∉
      (runCycle 0 ⟨.response 200 (.ok (.dict [("homeworks", .list [.dict []]),
        ("current_date", .num 1)])), .ok, .ok, 42⟩).trace :=
  C10_falsy_first_element [("homeworks", .list [.dict []]),
    ("current_date", .num 1)] (.num 1) (.dict []) [] 0
    ⟨.response 200 (.ok (.dict [("homeworks", .list [.dict []]),
      ("current_date", .num 1)])), .ok, .ok, 42⟩ rfl rfl rfl rfl

/-- C4: For every well-formed response mapping (it has `current_date` and
a list under `homeworks`): with an empty list the Validator returns the
`None` sentinel and the cycle sends no notification; with a non-empty
list it returns exactly the first element, and the cycle's behaviour
depends only on that first element — any other well-formed body with the
same first element (whatever its tail or other fields) produces an
identical cycle. -/
theorem C4_first_element_only (kvs kvs₂ : List (String × Val))
    (cd cd₂ hw : Val) (t t₂ : List Val) (ts : Nat) (env : CycleEnv)
    (hC : dictGet kvs "current_date" = some cd) :
    (dictGet kvs "homeworks" = some (.list []) →
       check_response (.dict kvs) = .ok .null ∧
       (env.http = .response 200 (.ok (.dict kvs)) →
          (runCycle ts env).outcome = .noSubmission ∧
          ∀ m, Event.sendAttempt m ∉ (runCycle ts env).trace)) ∧
    (dictGet kvs "homeworks" = some (.list (hw :: t)) →
       check_response (.dict kvs) = .ok hw ∧
       (dictGet kvs₂ "homeworks" = some (.list (hw :: t₂)) →
        dictGet kvs₂ "current_date" = some cd₂ →
        env.http = .response 200 (.ok (.dict kvs)) →
        runCycle ts env =
          runCycle ts { env with http := .response 200 (.ok (.dict kvs₂)) })) := by
  constructor
  · intro hH
    have hcr : check_response (.dict kvs) = .ok .null := by
      simp [check_response, hH, hC]
    refine ⟨hcr, fun hE => ⟨?_, ?_⟩⟩
    · simp [runCycle, get_api_answer, hE, hcr, Val.truthy]
    · intro m
      simp [runCycle, get_api_answer, hE, hcr, Val.truthy]
  · intro hH
    have hcr : check_response (.dict kvs) = .ok hw := by
      simp [check_response, hH, hC]
    refine ⟨hcr, fun hH₂ hC₂ hE => ?_⟩
    have hcr₂ : check_response (.dict kvs₂) = .ok hw := by
      simp [check_response, hH₂, hC₂]
    simp [runCycle, get_api_answer, hE, hcr, hcr₂, loopCatch]

/-- Witness for C4: an empty `homeworks` list gives the sentinel and a
silent cycle; a two-element list gives the first record, and dropping the
tail does not change the cycle. -/
theorem C4_witness :
    (check_response (.dict [("homeworks", .list []), ("current_date", .num 2)]) =
       .ok .null ∧
     (runCycle 1 ⟨.response 200 (.ok (.dict [("homeworks", .list []),
         ("current_date", .num 2)])), .ok, .ok, 9⟩).outcome = .noSubmission ∧
     ∀ m, Event.sendAttempt m ∉
       (runCycle 1 ⟨.response 200 (.ok (.dict [("homeworks", .list []),
         ("current_date", .num 2)])), .ok, .ok, 9⟩).trace) ∧
    (check_response (.dict [("homeworks",
        .list [.str "first", .str "second"]), ("current_date", .num 2)]) =
       .ok (.str "first") ∧
     runCycle 1 ⟨.response 200 (.ok (.dict [("homeworks",
         .list [.str "first", .str "second"]), ("current_date", .num 2)])),
         .ok, .ok, 9⟩ =
       runCycle 1 { (⟨.response 200 (.ok (.dict [("homeworks",
           .list [.str "first", .str "second"]), ("current_date", .num 2)])),
           .ok, .ok, 9⟩ : CycleEnv) with
         http := .response 200 (.ok (.dict [("homeworks",
           .list [.str "first"]), ("current_date", .num 3)])) }) :=
  ⟨by
    have h := (C4_first_element_only [("homeworks", .list []),
      ("current_date", .num 2)] [] (.num 2) (.num 2) .null [] [] 1
      ⟨.response 200 (.ok (.dict [("homeworks", .list []),
        ("current_date", .num 2)])), .ok, .ok, 9⟩ rfl).1 rfl
    exact ⟨h.1, (h.2 rfl).1, (h.2 rfl).2⟩,
   by
    have h := (C4_first_element_only [("homeworks",
      .list [.str "first", .str "second"]), ("current_date", .num 2)]
      [("homeworks", .list [.str "first"]), ("current_date", .num 3)]
      (.num 2) (.num 3) (.str "first") [.str "second"] [] 1
      ⟨.response 200 (.ok (.dict [("homeworks",
        .list [.str "first", .str "second"]), ("current_date", .num 2)])),
        .ok, .ok, 9⟩ rfl).2 rfl
    exact ⟨h.1, h.2 rfl rfl rfl⟩⟩

/-- C5: For every submission record given to `parse_status`: with
`homework_name` absent or null it fails with a `SchemaError`-kind error;
with `status` absent it fails with a `SchemaError`-kind error; and — the
earlier requirements being met, as the contract checks them in order —
with a `status` that is none of `approved`, `reviewing`, `rejected` it
fails with an `UnknownStatusError`-kind error. -/
theorem C5_parse_status_errors (kvs : List (String × Val))
    (nameVal stVal : Val) :
    ((dictGet kvs "homework_name" = none ∨
      dictGet kvs "homework_name" = some .null) →
       parse_status (.dict kvs) = .error .missingHomeworkName ∧
       BotError.missingHomeworkName.isSchemaKind = true) ∧
    (dictGet kvs "status" = none →
       ∃ e, parse_status (.dict kvs) = .error e ∧ e.isSchemaKind = true) ∧
    (dictGet kvs "homework_name" = some nameVal → nameVal ≠ .null →
     dictGet kvs "status" = some stVal →
     stVal ≠ .str "approved" → stVal ≠ .str "reviewing" →
     stVal ≠ .str "rejected" →
       parse_status (.dict kvs) = .error .unknownStatus ∧
       BotError.unknownStatus.isUnknownStatusKind = true) := by
  refine ⟨?_, ?_, ?_⟩
  · rintro (h | h) <;> exact ⟨by simp [parse_status, h], rfl⟩
  · intro hs
    rcases hn : dictGet kvs "homework_name" with _ | nv
    · exact ⟨.missingHomeworkName, by simp [parse_status, hn], rfl⟩
    · cases nv with
      | null => exact ⟨.missingHomeworkName, by simp [parse_status, hn], rfl⟩
      | bool b => exact ⟨.missingStatus, by simp [parse_status, hn, hs], rfl⟩
      | num n => exact ⟨.missingStatus, by simp [parse_status, hn, hs], rfl⟩
      | str s => exact ⟨.missingStatus, by simp [parse_status, hn, hs], rfl⟩
      | list xs => exact ⟨.missingStatus, by simp [parse_status, hn, hs], rfl⟩
      | dict kvs2 => exact ⟨.missingStatus, by simp [parse_status, hn, hs], rfl⟩
  · intro hn hnn hs h1 h2 h3
    refine ⟨?_, rfl⟩
    have hst : (match stVal with
        | .str s =>
            match HOMEWORK_VERDICTS.lookup s with
            | none => Except.error BotError.unknownStatus
            | some verdict =>
                Except.ok ("Изменился статус проверки работы \"" ++
                  nameVal.pyStr ++ "\". " ++ verdict)
        | _ => Except.error BotError.unknownStatus) =
          Except.error BotError.unknownStatus := by
      cases stVal with
      | str s =>
          have hs1 : s ≠ "approved" := fun hh => h1 (by rw [hh])
          have hs2 : s ≠ "reviewing" := fun hh => h2 (by rw [hh])
          have hs3 : s ≠ "rejected" := fun hh => h3 (by rw [hh])
          have b1 : (s == "approved") = false := by
            rw [beq_eq_false_iff_ne]; exact hs1
          have b2 : (s == "reviewing") = false := by
            rw [beq_eq_false_iff_ne]; exact hs2
          have b3 : (s == "rejected") = false := by
            rw [beq_eq_false_iff_ne]; exact hs3
          have hl : HOMEWORK_VERDICTS.lookup s = none := by
            simp [HOMEWORK_VERDICTS, List.lookup, b1, b2, b3]
          simp [hl]
      | null => rfl
      | bool b => rfl
      | num n => rfl
      | list xs => rfl
      | dict kvs2 => rfl
    cases nameVal with
    | null => exact absurd rfl hnn
    | bool b => simpa [parse_status, hn, hs] using hst
    | num n => simpa [parse_status, hn, hs] using hst
    | str s => simpa [parse_status, hn, hs] using hst
    | list xs => simpa [parse_status, hn, hs] using hst
    | dict kvs2 => simpa [parse_status, hn, hs] using hst

/-- Witness for C5: a record with only `status` (name missing), a record
with only `homework_name` (status missing), and a record with an unknown
status `weird`. -/
theorem C5_witness :
    (parse_status (.dict [("status", .str "approved")]) =
       .error .missingHomeworkName ∧
     BotError.missingHomeworkName.isSchemaKind = true) ∧
    (∃ e, parse_status (.dict [("homework_name", .str "hw")]) = .error e ∧
       e.isSchemaKind = true) ∧
    (parse_status (.dict [("homework_name", .str "hw"),
        ("status", .str "weird")]) = .error .unknownStatus ∧
     BotError.unknownStatus.isUnknownStatusKind = true) :=
  ⟨(C5_parse_status_errors [("status", .str "approved")] .null .null).1
     (Or.inl rfl),
   (C5_parse_status_errors [("homework_name", .str "hw")] .null .null).2.1 rfl,
   (C5_parse_status_errors [("homework_name", .str "hw"),
       ("status", .str "weird")] (.str "hw") (.str "weird")).2.2 rfl
     (fun h => Val.noConfusion h) rfl
     (fun h => by injection h with h2; exact absurd h2 (by decide))
     (fun h => by injection h with h2; exact absurd h2 (by decide))
     (fun h => by injection h with h2; exact absurd h2 (by decide))⟩

/-- A cycle whose fetch raises a transport error, with the clock at 1000. -/
def failingCycleEnv : CycleEnv :=
  ⟨.requestException "connection refused", .ok, .ok, 1000⟩

/-- The cursor after a cycle: unchanged when the try body raises (the
reassignment at line 145 is the last statement of the `try` block and is
skipped on any earlier error), `now` otherwise. -/
theorem runCycle_timestamp (ts : Nat) (env : CycleEnv) :
    (runCycle ts env).timestamp =
      (if cycleFails env then ts else env.now) := by
  rcases henv : env.http with msg | ⟨code, body⟩
  · simp [runCycle, get_api_answer, cycleFails, henv]
  · by_cases h : code = 200
    · subst h
      rcases body with msg | v
      · simp [runCycle, get_api_answer, cycleFails, henv]
      · rcases hc : check_response v with e | hwv
        · simp [runCycle, get_api_answer, cycleFails, henv, hc]
        · cases ht : hwv.truthy
          · simp [runCycle, get_api_answer, cycleFails, henv, hc, ht]
          · rcases hp : parse_status hwv with e | m <;>
              simp [runCycle, get_api_answer, cycleFails, henv, hc, ht, hp]
    · simp [runCycle, get_api_answer, cycleFails, henv, h]

/-- Every cycle's first observable action is the HTTP GET with the
cycle's starting cursor as `from_date`. -/
theorem runCycle_first_event (ts : Nat) (env : CycleEnv) :
    (runCycle ts env).trace.head? = some (.httpGet ts) := by
  rcases henv : env.http with msg | ⟨code, body⟩
  · simp [runCycle, get_api_answer, henv]
  · by_cases h : code = 200
    · subst h
      rcases body with msg | v
      · simp [runCycle, get_api_answer, henv]
      · rcases hc : check_response v with e | hwv
        · simp [runCycle, get_api_answer, henv, hc]
        · cases ht : hwv.truthy <;> rcases hp : parse_status hwv with e | m <;>
            simp [runCycle, get_api_answer, henv, hc, ht, hp]
    · simp [runCycle, get_api_answer, henv, h]

/-- Counterexample to C1: a cycle whose fetch raises keeps the cursor at
its old value (0) instead of reassigning it to `now` (1000), and the next
cycle therefore requests the very same time window `from_date = 0`
again. -/
theorem C1_counterexample :
    (runCycle 0 failingCycleEnv).timestamp = 0 ∧
    failingCycleEnv.now = 1000 ∧
    ¬ (runCycle 0 failingCycleEnv).timestamp = failingCycleEnv.now ∧
    (runCycle (runCycle 0 failingCycleEnv).timestamp
        failingCycleEnv).trace.head? = some (.httpGet 0) := by
  refine ⟨rfl, rfl, by decide, rfl⟩

/-- C1 amended: the cursor is reassigned to `now` exactly in the cycles
whose try body raises nothing (a swallowed notification-send failure
still counts as success); a cycle in which the fetch, validation, or
interpretation raises keeps the cursor unchanged, so the next cycle
requests the same time window again. -/
theorem C1_amended_cursor_advance (ts : Nat) (env next : CycleEnv) :
    (runCycle ts env).timestamp =
      (if cycleFails env then ts else env.now) ∧
    (cycleFails env = true →
       (runCycle (runCycle ts env).timestamp next).trace.head? =
         some (.httpGet ts)) := by
  refine ⟨runCycle_timestamp ts env, fun hfail => ?_⟩
  rw [runCycle_timestamp ts env, hfail, if_pos rfl]
  exact runCycle_first_event ts next

/-- Witness for the amended C1 at the concrete failing environment. -/
theorem C1_amended_witness :
    (runCycle 0 failingCycleEnv).timestamp =
      (if cycleFails failingCycleEnv then 0 else failingCycleEnv.now) ∧
    (runCycle (runCycle 0 failingCycleEnv).timestamp
        failingCycleEnv).trace.head? = some (.httpGet 0) :=
  ⟨(C1_amended_cursor_advance 0 failingCycleEnv failingCycleEnv).1,
   (C1_amended_cursor_advance 0 failingCycleEnv failingCycleEnv).2 rfl⟩
